import Mathlib

/-!
Verification of the deadline-bounded task supervisor of `src/main.py`
(a Google Chat webhook in front of a long-running agent call).

Shallow embedding conventions:
* wall-clock time is modelled in whole seconds (`Nat`);
* the agent task (`run_agent` wrapped in `asyncio.create_task`) is modelled
  by `AgentOp`: the absolute time at which the task finishes (`none` when it
  never finishes) together with the string it returns.  `run_agent` catches
  every exception and returns a string, so a finished, un-cancelled task
  always carries a string result;
* `asyncio.wait_for(asyncio.shield(task), T)` started at time `t` resolves
  with the result when the task finishes by `t + T` and raises
  `TimeoutError` otherwise; per `asyncio.shield` semantics the timeout never
  cancels the task itself, so the task keeps its own completion time;
* the Google Chat API (`send_message_via_api`) is the Notifier: each call is
  one delivery attempt whose success is given by an arbitrary failure
  pattern `notif : Nat → Bool` indexed by the attempt counter; a `false`
  models the Python call raising, which every caller catches;
* Python strings are modelled as `List Char` where index arithmetic matters
  (`split_message`) and as `String` elsewhere.
-/

namespace ChatServer

/-- Constants from `src/main.py` lines 113-124 and 253. -/
def TIMEOUT_SECONDS : Nat := 20

/-- Generic user-facing technical-error message (`ERROR_MESSAGE`, line 118). -/
def ERROR_MESSAGE : String :=
  "Sorry, a technical error occurred while processing your request. Please contact support."

/-- The built-in progress script (`WAITING_MESSAGES`, lines 119-123). -/
def WAITING_MESSAGES : List String :=
  ["I\x27m processing your request, give me a moment...",
   "Sorry for the delay, I\x27m still working on your request.",
   "I\x27m sorry, I had a technical issue and couldn\x27t process your request. Could you contact support?"]

/-- `MAX_MESSAGE_LENGTH` (line 253). -/
def MAX_MESSAGE_LENGTH : Nat := 4000

/-- `MAX_MESSAGES` (line 71): history keeps the last 4 entries. -/
def MAX_MESSAGES : Nat := 4

/-- The agent task: absolute completion time (`none` = never completes) and
the string result it returns when it completes. -/
structure AgentOp where
  completesAt : Option Nat
  result : String
deriving DecidableEq, Repr

/-- `agent_task.done()` evaluated at absolute time `t`. -/
def taskDone (op : AgentOp) (t : Nat) : Bool :=
  match op.completesAt with
  | some tc => decide (tc ≤ t)
  | none => false

/-- `run_agent` (lines 334-366): the body returns the agent response text; any
exception is caught, logged, and converted to the string `"Error: " + str(e)`
which is returned as the result. -/
def run_agent (outcome : Except String String) : String :=
  match outcome with
  | Except.ok s => s
  | Except.error e => "Error: " ++ e

/-- Observable events of one request: the synchronous webhook reply, one
`send_message_via_api` attempt (text, delivery success), and
`agent_task.cancel()`. -/
inductive Ev : Type
  | webhookReply : String → Ev
  | apiSend : String → Bool → Ev
  | cancel : Ev
deriving DecidableEq, Repr

/-- `try_quick_response` (lines 369-395): race the shielded agent task against
the `TIMEOUT_SECONDS` deadline.  On completion within the deadline it returns
`(True, result, None)`; on timeout it returns
`(False, WAITING_MESSAGES[0], agent_task)` with the task still running and
un-cancelled (modelled by handing back the unchanged `AgentOp`). -/
def try_quick_response (op : AgentOp) : Bool × String × Option AgentOp :=
  if taskDone op TIMEOUT_SECONDS then
    (true, op.result, none)
  else
    (false, WAITING_MESSAGES[0]!, some op)

/-- State threaded through the background loop: the event trace so far and the
number of `send_message_via_api` attempts made (the index into the notifier
failure pattern). -/
structure BgState where
  trace : List Ev
  sends : Nat
deriving DecidableEq, Repr

/-- One `send_message_via_api` call: records the attempt and reports whether
the call succeeded (`false` models the Python call raising). -/
def trySend (notif : Nat → Bool) (st : BgState) (text : String) : BgState × Bool :=
  let ok := notif st.sends
  ({ trace := st.trace ++ [Ev.apiSend text ok], sends := st.sends + 1 }, ok)

/-- Delivering a final result (lines 432-441 and 463-475): send `text`; if the
send raises, fall back to sending `ERROR_MESSAGE`, whose own failure is
swallowed. -/
def deliverResult (notif : Nat → Bool) (st : BgState) (text : String) : BgState :=
  let p := trySend notif st text
  if p.2 then p.1 else (trySend notif p.1 ERROR_MESSAGE).1

/-- Result of the `while` loop of `continue_processing_in_background`:
final state, current absolute time, and whether the loop body executed a
`return` (as opposed to falling through to the post-loop check). -/
structure LoopOut where
  st : BgState
  t : Nat
  returned : Bool
deriving DecidableEq, Repr

/-- The `while` loop of `continue_processing_in_background` (lines 415-459),
entered at absolute time `t` with cursor `idx` (`message_index`).
Loop guard: `not agent_task.done() and message_index < len(script) - 1`.
Body: wait up to `TIMEOUT_SECONDS` for the shielded task; on completion send
the result (with error fallback) and return; on timeout send `script[idx]`
(failure caught and logged), increment the cursor, and if the cursor now
satisfies `len(script) - 1 <= idx` cancel the task and return.  The fuel
argument only serves termination; each iteration increments `idx`, so
`script.length + 1` fuel is never exhausted. -/
def bgLoop (script : List String) (op : AgentOp) (notif : Nat → Bool) :
    Nat → Nat → Nat → BgState → LoopOut
  | 0, _, t, st => ⟨st, t, true⟩
  | fuel + 1, idx, t, st =>
    if taskDone op t = false ∧ idx < script.length - 1 then
      if taskDone op (t + TIMEOUT_SECONDS) then
        ⟨deliverResult notif st op.result, t + TIMEOUT_SECONDS, true⟩
      else
        let p := trySend notif st (script[idx]!)
        if script.length - 1 ≤ idx + 1 then
          ⟨{ p.1 with trace := p.1.trace ++ [Ev.cancel] }, t + TIMEOUT_SECONDS, true⟩
        else
          bgLoop script op notif fuel (idx + 1) (t + TIMEOUT_SECONDS) p.1
    else
      ⟨st, t, false⟩

/-- `continue_processing_in_background` (lines 398-483).  It starts at
absolute time `TIMEOUT_SECONDS` (the fast path consumed the first deadline)
with `message_index = 1`.  After the loop falls through, the post-loop check
(lines 462-475) delivers the result when the task is done — the
`not agent_task.cancelled()` conjunct is always true on this path because the
cancelling branch returns from inside the loop.  Every exception raised by a
send is caught inside, so the function always returns a state. -/
def continue_processing_in_background (script : List String) (op : AgentOp)
    (notif : Nat → Bool) : BgState :=
  let out := bgLoop script op notif (script.length + 1) 1 TIMEOUT_SECONDS ⟨[], 0⟩
  if out.returned then out.st
  else if taskDone op out.t then deliverResult notif out.st op.result
  else out.st

/-- `build_response` truncation (lines 619-642): text longer than
`MAX_MESSAGE_LENGTH` is cut to `MAX_MESSAGE_LENGTH - 100` characters plus a
truncation notice. -/
def build_response_text (text : String) : String :=
  if MAX_MESSAGE_LENGTH < text.length then
    text.take (MAX_MESSAGE_LENGTH - 100) ++ "\n\n... (messaje truncated, long response)"
  else text

/-- The message-processing tail of `google_chat_webhook` (lines 591-612):
run the fast path; on success reply synchronously with the result; on timeout
reply with the first waiting message and launch the background continuation
on the still-running task.  The returned list is the chronological event
trace of the whole request. -/
def google_chat_webhook (op : AgentOp) (notif : Nat → Bool) : List Ev :=
  match try_quick_response op with
  | (true, text, _) => [Ev.webhookReply (build_response_text text)]
  | (false, text, some h) =>
      Ev.webhookReply (build_response_text text) ::
        (continue_processing_in_background WAITING_MESSAGES h notif).trace
  | (false, text, none) => [Ev.webhookReply (build_response_text text)]

/-- One entry of the persisted conversation history: the dict
`{"role": ..., "content": ..., "timestamp": ...}` appended by
`add_to_history` (lines 99-107). -/
structure HistEntry where
  role : String
  content : String
  timestamp : String
deriving DecidableEq, Repr

/-- `save_history` (lines 88-96): persists `history[-MAX_MESSAGES:]`, the last
`min MAX_MESSAGES history.length` entries in their original order —
`List.drop (length - MAX_MESSAGES)` is exactly the Python suffix slice. -/
def save_history (history : List HistEntry) : List HistEntry :=
  history.drop (history.length - MAX_MESSAGES)

/-- `add_to_history` (lines 99-107): append the new entry to the stored
history and persist via `save_history`; `timestamp` stands for
`datetime.now().isoformat()`.  Returns the persisted history. -/
def add_to_history (history : List HistEntry) (role content timestamp : String) :
    List HistEntry :=
  save_history (history ++ [⟨role, content, timestamp⟩])

/-- Characters removed by Python `str.strip()` at either end. -/
def isPySpace (c : Char) : Bool :=
  c == ' ' || c == '\t' || c == '\n' || c == '\r' || c == '\x0b' || c == '\x0c'

/-- Python `str.strip()` on a character list. -/
def pyStrip (s : List Char) : List Char :=
  ((s.dropWhile isPySpace).reverse.dropWhile isPySpace).reverse

/-- Python `s.rfind(c, 0, stop)`: the largest index `i < stop` with
`s[i] = c`, as an `Option` (`none` for Python `-1`).  Scanning the index
range downwards and taking the first hit is exactly that largest index. -/
def rfindIn (c : Char) (s : List Char) (stop : Nat) : Option Nat :=
  (List.range stop).reverse.find? (fun i => s.get? i == some c)

/-- The cut-point computation of `split_message` (lines 268-277): the last
newline in the first `maxLength` characters, else the last space there, else
`maxLength` itself. -/
def cutPoint (remaining : List Char) (maxLength : Nat) : Nat :=
  match rfindIn '\n' remaining maxLength with
  | some i => i
  | none =>
    match rfindIn ' ' remaining maxLength with
    | some i => i
    | none => maxLength

/-- The `while len(remaining) > max_length` loop of `split_message`
(lines 264-284) together with the trailing `if remaining: parts.append(...)`.
The fuel argument only serves termination: with a positive `maxLength` every
iteration strictly shortens `remaining`, so `remaining.length + 1` fuel is
never exhausted. -/
def splitLoop (maxLength : Nat) : Nat → List Char → List (List Char)
  | 0, _ => []
  | fuel + 1, remaining =>
    if maxLength < remaining.length then
      let cut := cutPoint remaining maxLength
      pyStrip (remaining.take cut) ::
        splitLoop maxLength fuel (pyStrip (remaining.drop cut))
    else if remaining.isEmpty then [] else [remaining]

/-- `split_message` (lines 256-285): texts within the limit are returned as a
one-element list; longer texts are split by the loop. -/
def split_message (text : List Char) (maxLength : Nat) : List (List Char) :=
  if text.length ≤ maxLength then [text]
  else splitLoop maxLength (text.length + 1) text

/-- Spec-side classification (for P1): a delivered terminal payload is the
operation result, the generic error message, or the terminal (giving-up)
script entry; a failed API send delivers nothing. -/
def isTerminalText (op : AgentOp) (t : String) : Bool :=
  t == op.result || t == ERROR_MESSAGE || t == WAITING_MESSAGES[2]!

/-- Spec-side classification of events as terminal deliveries. -/
def isTerminalDelivery (op : AgentOp) : Ev → Bool
  | Ev.webhookReply t => isTerminalText op t
  | Ev.apiSend t ok => ok && isTerminalText op t
  | Ev.cancel => false

lemma taskDone_mono (op : AgentOp) {a b : Nat} (hab : a ≤ b) (h : taskDone op a = true) :
    taskDone op b = true := by
  cases hc : op.completesAt with
  | none => simp [taskDone, hc] at h
  | some tc =>
    simp only [taskDone, hc, decide_eq_true_eq] at h ⊢
    omega

lemma deliverResult_nil (notif : Nat → Bool) (text : String) :
    deliverResult notif ⟨[], 0⟩ text =
      if notif 0 then ⟨[Ev.apiSend text true], 1⟩
      else ⟨[Ev.apiSend text false, Ev.apiSend ERROR_MESSAGE (notif 1)], 2⟩ := by
  cases h : notif 0 <;> simp [deliverResult, trySend, h]

lemma bgLoop_succ (script : List String) (op : AgentOp) (notif : Nat → Bool)
    (fuel idx t : Nat) (st : BgState) :
    bgLoop script op notif (fuel + 1) idx t st =
      if taskDone op t = false ∧ idx < script.length - 1 then
        if taskDone op (t + TIMEOUT_SECONDS) then
          ⟨deliverResult notif st op.result, t + TIMEOUT_SECONDS, true⟩
        else
          let p := trySend notif st (script[idx]!)
          if script.length - 1 ≤ idx + 1 then
            ⟨{ p.1 with trace := p.1.trace ++ [Ev.cancel] }, t + TIMEOUT_SECONDS, true⟩
          else
            bgLoop script op notif fuel (idx + 1) (t + TIMEOUT_SECONDS) p.1
      else
        ⟨st, t, false⟩ := rfl

/-- Full characterization of the background continuation on the built-in
3-entry script: if the task finishes by the end of the first background
cadence (absolute time `2 * TIMEOUT_SECONDS`), the result is delivered (with
the generic-error fallback); otherwise the loop sends intermediate entry 1
and cancels the task, and nothing else ever happens. -/
lemma bg_spec (op : AgentOp) (notif : Nat → Bool) :
    continue_processing_in_background WAITING_MESSAGES op notif =
      if taskDone op (2 * TIMEOUT_SECONDS) = true then
        deliverResult notif ⟨[], 0⟩ op.result
      else ⟨[Ev.apiSend (WAITING_MESSAGES[1]!) (notif 0), Ev.cancel], 1⟩ := by
  have htt : TIMEOUT_SECONDS + TIMEOUT_SECONDS = 2 * TIMEOUT_SECONDS := by ring
  have hlen : WAITING_MESSAGES.length = 3 := rfl
  by_cases h20 : taskDone op TIMEOUT_SECONDS = true
  · have h40 : taskDone op (2 * TIMEOUT_SECONDS) = true :=
      taskDone_mono op (by decide) h20
    simp [continue_processing_in_background, bgLoop_succ, hlen, h20, h40]
  · by_cases h40 : taskDone op (2 * TIMEOUT_SECONDS) = true
    · simp [continue_processing_in_background, bgLoop_succ, hlen, h20, htt, h40]
    · simp [continue_processing_in_background, bgLoop_succ, hlen, h20, htt, h40,
        trySend]

lemma length_dropWhile_le_aux (p : Char → Bool) (l : List Char) :
    (l.dropWhile p).length ≤ l.length := by
  induction l with
  | nil => simp
  | cons a l ih =>
    by_cases h : p a
    · simp only [List.dropWhile_cons, h, if_true, List.length_cons]
      omega
    · simp [List.dropWhile_cons, h]

lemma pyStrip_length_le (s : List Char) : (pyStrip s).length ≤ s.length := by
  calc (pyStrip s).length
      = (((s.dropWhile isPySpace).reverse).dropWhile isPySpace).length := by
        simp [pyStrip]
    _ ≤ ((s.dropWhile isPySpace).reverse).length := length_dropWhile_le_aux _ _
    _ = (s.dropWhile isPySpace).length := by simp
    _ ≤ s.length := length_dropWhile_le_aux _ _

lemma rfindIn_lt_stop {c : Char} {s : List Char} {stop i : Nat}
    (h : rfindIn c s stop = some i) : i < stop := by
  unfold rfindIn at h
  have hm : i ∈ (List.range stop).reverse := List.mem_of_find?_eq_some h
  rw [List.mem_reverse, List.mem_range] at hm
  exact hm

lemma cutPoint_le (remaining : List Char) (maxLength : Nat) :
    cutPoint remaining maxLength ≤ maxLength := by
  unfold cutPoint
  cases h1 : rfindIn '\n' remaining maxLength with
  | some i => exact le_of_lt (rfindIn_lt_stop h1)
  | none =>
    cases h2 : rfindIn ' ' remaining maxLength with
    | some i => exact le_of_lt (rfindIn_lt_stop h2)
    | none => exact le_refl _

lemma splitLoop_length_le (maxLength : Nat) :
    ∀ (fuel : Nat) (remaining : List Char),
      ∀ p ∈ splitLoop maxLength fuel remaining, p.length ≤ maxLength := by
  intro fuel
  induction fuel with
  | zero => intro remaining p hp; simp [splitLoop] at hp
  | succ n ih =>
    intro remaining p hp
    rw [splitLoop] at hp
    by_cases hlong : maxLength < remaining.length
    · rw [if_pos hlong] at hp
      rcases List.mem_cons.mp hp with hhead | htail
      · subst hhead
        calc (pyStrip (remaining.take (cutPoint remaining maxLength))).length
            ≤ (remaining.take (cutPoint remaining maxLength)).length :=
              pyStrip_length_le _
          _ ≤ cutPoint remaining maxLength := by
              rw [List.length_take]; exact min_le_left _ _
          _ ≤ maxLength := cutPoint_le _ _
      · exact ih _ p htail
    · rw [if_neg hlong] at hp
      by_cases hemp : remaining.isEmpty
      · simp [hemp] at hp
      · rw [if_neg hemp] at hp
        rcases List.mem_singleton.mp hp with rfl
        omega

/-- Claim C9: every element of `split_message text maxLength` has length at
most `maxLength`, and a text already within the limit is returned verbatim as
a one-element list. -/
theorem c9_split_message_bounds (text : List Char) (maxLength : Nat)
    (_hpos : 0 < maxLength) :
    (∀ p ∈ split_message text maxLength, p.length ≤ maxLength) ∧
    (text.length ≤ maxLength → split_message text maxLength = [text]) := by
  constructor
  · intro p hp
    unfold split_message at hp
    by_cases hle : text.length ≤ maxLength
    · rw [if_pos hle] at hp
      rcases List.mem_singleton.mp hp with rfl
      exact hle
    · rw [if_neg hle] at hp
      exact splitLoop_length_le maxLength _ _ p hp
  · intro hle
    simp [split_message, hle]

/-- Witness for C9: the theorem applied at concrete inputs. -/
theorem c9_witness :
    (∀ p ∈ split_message "hello world".toList 4, p.length ≤ 4) ∧
    split_message "hi".toList 4 = ["hi".toList] :=
  ⟨(c9_split_message_bounds "hello world".toList 4 (by decide)).1,
   (c9_split_message_bounds "hi".toList 4 (by decide)).2 (by decide)⟩

/-- Claim C10: after `add_to_history` the persisted history has at most
`MAX_MESSAGES = 4` entries, and what is kept is a suffix (the most recent
entries, in their original order) of the appended history. -/
theorem c10_history_bounded (history : List HistEntry) (role content timestamp : String) :
    (add_to_history history role content timestamp).length ≤ MAX_MESSAGES ∧
    add_to_history history role content timestamp <:+ (history ++ [⟨role, content, timestamp⟩]) ∧
    (add_to_history history role content timestamp).length
      = min (history.length + 1) MAX_MESSAGES := by
  refine ⟨?_, ?_, ?_⟩
  · simp [add_to_history, save_history, MAX_MESSAGES]
    omega
  · exact List.drop_suffix _ _
  · simp [add_to_history, save_history, MAX_MESSAGES]
    omega


/-- Claim C1, code behaviour at the failing input: with the built-in 3-entry
script and an operation that never completes, the background continuation
sends only intermediate entry 1 and then requests cancellation; the terminal
entry 2 is never sent at all (neither before nor after the cancellation). -/
theorem c1_terminal_entry_never_sent :
    (continue_processing_in_background WAITING_MESSAGES ⟨none, "R"⟩ (fun _ => true)).trace
      = [Ev.apiSend (WAITING_MESSAGES[1]!) true, Ev.cancel] ∧
    Ev.apiSend (WAITING_MESSAGES[2]!) true ∉
      (continue_processing_in_background WAITING_MESSAGES ⟨none, "R"⟩ (fun _ => true)).trace ∧
    Ev.apiSend (WAITING_MESSAGES[2]!) false ∉
      (continue_processing_in_background WAITING_MESSAGES ⟨none, "R"⟩ (fun _ => true)).trace := by
  refine ⟨by decide, by decide, by decide⟩

/-- Claim C2, code behaviour at the spec scenario: deadline = cadence = 20s,
built-in 3-entry script, operation completes at t = 50s with result `"R"`.
The fast path replies with entry 0, the continuation sends entry 1 at t = 40s
and immediately cancels the task; no third cadence wait happens and `"R"` is
never delivered. -/
theorem c2_scenario_result_lost :
    google_chat_webhook ⟨some 50, "R"⟩ (fun _ => true)
      = [Ev.webhookReply (WAITING_MESSAGES[0]!),
         Ev.apiSend (WAITING_MESSAGES[1]!) true, Ev.cancel] ∧
    Ev.apiSend "R" true ∉ google_chat_webhook ⟨some 50, "R"⟩ (fun _ => true) ∧
    Ev.webhookReply "R" ∉ google_chat_webhook ⟨some 50, "R"⟩ (fun _ => true) := by
  refine ⟨by decide, by decide, by decide⟩

/-- Counterexample to claim C3: for the failing operation whose exception
message is `"db timeout"`, the text delivered to the end user is
`"Error: " ++ "db timeout"` — it contains the raw error text, which is not
only logged. -/
theorem c3_counterexample :
    google_chat_webhook ⟨some 5, run_agent (Except.error "db timeout")⟩ (fun _ => true)
      = [Ev.webhookReply ("Error: " ++ "db timeout")] := by
  decide

/-- Claim C3 as amended: for a failing operation with error text `e`, the
user receives the string `"Error: " ++ e` (containing the raw error text) —
synchronously when the failure happens within the deadline, via the Notifier
when it happens during the first background cadence. -/
theorem c3_amended_raw_error_delivered (e : String)
    (hlen : ("Error: " ++ e).length ≤ MAX_MESSAGE_LENGTH) :
    run_agent (Except.error e) = "Error: " ++ e ∧
    google_chat_webhook ⟨some 5, run_agent (Except.error e)⟩ (fun _ => true)
      = [Ev.webhookReply ("Error: " ++ e)] ∧
    google_chat_webhook ⟨some 30, run_agent (Except.error e)⟩ (fun _ => true)
      = [Ev.webhookReply (WAITING_MESSAGES[0]!), Ev.apiSend ("Error: " ++ e) true] := by
  have hra : run_agent (Except.error e) = "Error: " ++ e := rfl
  have hlen2 : ¬ (MAX_MESSAGE_LENGTH < "Error: ".length + e.length) := by
    rw [String.length_append] at hlen
    omega
  have hb : build_response_text (WAITING_MESSAGES[0]!) = WAITING_MESSAGES[0]! := by decide
  refine ⟨hra, ?_, ?_⟩
  · have hq : try_quick_response ⟨some 5, run_agent (Except.error e)⟩
        = (true, run_agent (Except.error e), none) := rfl
    unfold google_chat_webhook
    rw [hq]
    simp [build_response_text, hra, hlen2]
  · have hq : try_quick_response ⟨some 30, run_agent (Except.error e)⟩
        = (false, WAITING_MESSAGES[0]!, some ⟨some 30, run_agent (Except.error e)⟩) := rfl
    have h40 : ∀ s : String, taskDone ⟨some 30, s⟩ (2 * TIMEOUT_SECONDS) = true := fun _ => rfl
    unfold google_chat_webhook
    rw [hq]
    simp [bg_spec, h40, deliverResult_nil, hra, hb]

/-- Witness for the amended C3 at a concrete error text. -/
theorem c3_amended_witness :
    run_agent (Except.error "boom") = "Error: " ++ "boom" ∧
    google_chat_webhook ⟨some 5, run_agent (Except.error "boom")⟩ (fun _ => true)
      = [Ev.webhookReply ("Error: " ++ "boom")] ∧
    google_chat_webhook ⟨some 30, run_agent (Except.error "boom")⟩ (fun _ => true)
      = [Ev.webhookReply (WAITING_MESSAGES[0]!), Ev.apiSend ("Error: " ++ "boom") true] :=
  c3_amended_raw_error_delivered "boom" (by decide)


/-- Claim C4: the elapsing of a wait never cancels the agent task.  The
fast-path timeout hands back the unchanged, still-running operation; an
operation that survives the fast-path deadline but completes by the end of a
background cadence is never cancelled (its result is delivered instead); and
the only cancellation ever issued is the explicit one at exhaustion, after
which the trace ends. -/
theorem c4_wait_timeout_never_cancels :
    (∀ op : AgentOp, taskDone op TIMEOUT_SECONDS = false →
      try_quick_response op = (false, WAITING_MESSAGES[0]!, some op)) ∧
    (∀ (op : AgentOp) (notif : Nat → Bool), taskDone op (2 * TIMEOUT_SECONDS) = true →
      Ev.cancel ∉ (continue_processing_in_background WAITING_MESSAGES op notif).trace) ∧
    (∀ (op : AgentOp) (notif : Nat → Bool),
      Ev.cancel ∈ (continue_processing_in_background WAITING_MESSAGES op notif).trace →
      taskDone op (2 * TIMEOUT_SECONDS) = false ∧
      (continue_processing_in_background WAITING_MESSAGES op notif).trace
        = [Ev.apiSend (WAITING_MESSAGES[1]!) (notif 0), Ev.cancel]) := by
  refine ⟨?_, ?_, ?_⟩
  · intro op h
    simp [try_quick_response, h]
  · intro op notif h40
    rw [bg_spec]
    rw [if_pos h40, deliverResult_nil]
    cases hn : notif 0 <;> simp
  · intro op notif hmem
    by_cases h40 : taskDone op (2 * TIMEOUT_SECONDS) = true
    · exfalso
      rw [bg_spec, if_pos h40, deliverResult_nil] at hmem
      cases hn : notif 0 <;> rw [hn] at hmem <;> simp at hmem
    · rw [bg_spec, if_neg h40]
      exact ⟨Bool.not_eq_true _ ▸ Bool.of_not_eq_true h40, rfl⟩

/-- Witness for C4 at concrete inputs. -/
theorem c4_witness :
    try_quick_response ⟨none, "R"⟩ = (false, WAITING_MESSAGES[0]!, some ⟨none, "R"⟩) ∧
    Ev.cancel ∉
      (continue_processing_in_background WAITING_MESSAGES ⟨some 30, "R"⟩ (fun _ => true)).trace ∧
    (taskDone (⟨none, "R"⟩ : AgentOp) (2 * TIMEOUT_SECONDS) = false ∧
      (continue_processing_in_background WAITING_MESSAGES ⟨none, "R"⟩ (fun _ => true)).trace
        = [Ev.apiSend (WAITING_MESSAGES[1]!) true, Ev.cancel]) :=
  ⟨c4_wait_timeout_never_cancels.1 ⟨none, "R"⟩ (by decide),
   c4_wait_timeout_never_cancels.2.1 ⟨some 30, "R"⟩ (fun _ => true) (by decide),
   c4_wait_timeout_never_cancels.2.2 ⟨none, "R"⟩ (fun _ => true) (by decide)⟩

/-- Counterexample to claim C5 as stated: for an operation that never
completes, zero terminal payloads are delivered (the exhaustion message is
never sent), not exactly one. -/
theorem c5_counterexample :
    ¬ ((google_chat_webhook ⟨none, "R"⟩ (fun _ => true)).countP
        (isTerminalDelivery ⟨none, "R"⟩) = 1) := by
  decide

/-- Claim C5 as amended: across the fast path and the background
continuation, at most one terminal payload (result, generic error, or
terminal script entry) is ever delivered, so the two components never both
deliver one.  The disequality hypotheses keep the operation result textually
distinct from the non-terminal script entries so the count is unambiguous. -/
theorem c5_at_most_one_terminal (op : AgentOp) (notif : Nat → Bool)
    (h0 : op.result ≠ WAITING_MESSAGES[0]!)
    (h1 : op.result ≠ WAITING_MESSAGES[1]!) :
    (google_chat_webhook op notif).countP (isTerminalDelivery op) ≤ 1 := by
  have e0r : (WAITING_MESSAGES[0]! == op.result) = false :=
    beq_eq_false_iff_ne.mpr (Ne.symm h0)
  have e0E : (WAITING_MESSAGES[0]! == ERROR_MESSAGE) = false := by decide
  have e0T : (WAITING_MESSAGES[0]! == WAITING_MESSAGES[2]!) = false := by decide
  have e1r : (WAITING_MESSAGES[1]! == op.result) = false :=
    beq_eq_false_iff_ne.mpr (Ne.symm h1)
  have e1E : (WAITING_MESSAGES[1]! == ERROR_MESSAGE) = false := by decide
  have e1T : (WAITING_MESSAGES[1]! == WAITING_MESSAGES[2]!) = false := by decide
  have hb : build_response_text (WAITING_MESSAGES[0]!) = WAITING_MESSAGES[0]! := by decide
  by_cases hd : taskDone op TIMEOUT_SECONDS = true
  · have hq : try_quick_response op = (true, op.result, none) := by
      simp [try_quick_response, hd]
    unfold google_chat_webhook
    rw [hq]
    exact le_trans (List.countP_le_length _) (by simp)
  · have hq : try_quick_response op = (false, WAITING_MESSAGES[0]!, some op) := by
      simp [try_quick_response, hd]
    unfold google_chat_webhook
    rw [hq]
    show List.countP (isTerminalDelivery op)
        (Ev.webhookReply (build_response_text (WAITING_MESSAGES[0]!)) ::
          (continue_processing_in_background WAITING_MESSAGES op notif).trace) ≤ 1
    rw [hb, bg_spec]
    by_cases h40 : taskDone op (2 * TIMEOUT_SECONDS) = true
    · rw [if_pos h40, deliverResult_nil]
      cases hn : notif 0
      · cases hn1 : notif 1 <;>
          simp [List.countP_cons, isTerminalDelivery, isTerminalText, e0r, e0E, e0T]
      · simp [List.countP_cons, isTerminalDelivery, isTerminalText, e0r, e0E, e0T]
    · rw [if_neg h40]
      simp [List.countP_cons, isTerminalDelivery, isTerminalText, e0r, e0E, e0T,
        e1r, e1E, e1T]

/-- Witness for the amended C5 at concrete inputs. -/
theorem c5_witness :
    (google_chat_webhook ⟨some 30, "R"⟩ (fun _ => true)).countP
      (isTerminalDelivery ⟨some 30, "R"⟩) ≤ 1 :=
  c5_at_most_one_terminal ⟨some 30, "R"⟩ (fun _ => true) (by decide) (by decide)


/-- Claim C6: the fast path returns `(true, result-or-error-text, none)`
exactly when the operation reaches a terminal state within the deadline, and
`(false, first waiting message, handle to the still-running operation)`
exactly when the deadline elapses first. -/
theorem c6_try_quick_response_contract (op : AgentOp) :
    (taskDone op TIMEOUT_SECONDS = true →
      try_quick_response op = (true, op.result, none)) ∧
    (taskDone op TIMEOUT_SECONDS = false →
      try_quick_response op = (false, WAITING_MESSAGES[0]!, some op)) := by
  constructor <;> intro h <;> simp [try_quick_response, h]

/-- Witness for C6 at concrete inputs. -/
theorem c6_witness :
    try_quick_response ⟨some 5, "R"⟩ = (true, "R", none) ∧
    try_quick_response ⟨none, "R"⟩ = (false, WAITING_MESSAGES[0]!, some ⟨none, "R"⟩) :=
  ⟨(c6_try_quick_response_contract ⟨some 5, "R"⟩).1 (by decide),
   (c6_try_quick_response_contract ⟨none, "R"⟩).2 (by decide)⟩

/-- Claim C7: once the continuation has cancelled the operation at
exhaustion, nothing further is ever sent: an operation completing at any time
after the exhaustion point produces exactly the same outcome as one that
never completes, and its trace ends at the cancellation event. -/
theorem c7_nothing_after_exhaustion (tc : Nat) (res : String) (notif : Nat → Bool)
    (h : 2 * TIMEOUT_SECONDS < tc) :
    continue_processing_in_background WAITING_MESSAGES ⟨some tc, res⟩ notif
      = continue_processing_in_background WAITING_MESSAGES ⟨none, res⟩ notif ∧
    (continue_processing_in_background WAITING_MESSAGES ⟨some tc, res⟩ notif).trace
      = [Ev.apiSend (WAITING_MESSAGES[1]!) (notif 0), Ev.cancel] := by
  have h1 : taskDone ⟨some tc, res⟩ (2 * TIMEOUT_SECONDS) = false := by
    simp only [taskDone, decide_eq_false_iff_not]
    omega
  have h2 : taskDone (⟨none, res⟩ : AgentOp) (2 * TIMEOUT_SECONDS) = false := rfl
  rw [bg_spec, bg_spec, if_neg (by simp [h1]), if_neg (by simp [h2])]
  exact ⟨rfl, rfl⟩

/-- Witness for C7 at a concrete late completion time. -/
theorem c7_witness :
    continue_processing_in_background WAITING_MESSAGES ⟨some 100, "R"⟩ (fun _ => true)
      = continue_processing_in_background WAITING_MESSAGES ⟨none, "R"⟩ (fun _ => true) ∧
    (continue_processing_in_background WAITING_MESSAGES ⟨some 100, "R"⟩ (fun _ => true)).trace
      = [Ev.apiSend (WAITING_MESSAGES[1]!) true, Ev.cancel] :=
  c7_nothing_after_exhaustion 100 "R" (fun _ => true) (by decide)

/-- Claim C8: failures are contained.  For every notifier failure pattern the
continuation still runs to completion and produces the same attempt
sequence — a failed waiting-message send is not retried, the loop simply
advances to its next scheduled action (here: the exhaustion cancellation) —
and a failing fast path is converted into a delivered response string rather
than an exception. -/
theorem c8_failures_contained :
    (∀ (res : String) (notif : Nat → Bool),
      (continue_processing_in_background WAITING_MESSAGES ⟨none, res⟩ notif).trace
        = [Ev.apiSend (WAITING_MESSAGES[1]!) (notif 0), Ev.cancel]) ∧
    (∀ e : String, run_agent (Except.error e) = "Error: " ++ e) := by
  constructor
  · intro res notif
    rw [bg_spec, if_neg (by simp [taskDone])]
  · intro e
    rfl

end ChatServer
